import Mathlib

set_option autoImplicit false
set_option maxHeartbeats 1000000

/-
Shallow embedding of src/github-notifyd.c: the polling-and-dispatch pipeline
of the GitHub notifications daemon.  Network traffic, JSON decoding of raw
bytes, and the avatar file cache are modelled as oracles supplied per tick;
everything downstream of them (field extraction, per-record policy, the
capability-aware renderer with its identity quirks, the error taxonomy of a
tick, and the polling-interval clamp of main) is translated directly from
the source.
-/

namespace GithubNotifyd

/-- Syslog priority used by print_log for error diagnostics (LOG_ERR). -/
def LOG_ERR : Nat := 3

/-- Syslog priority used by print_log for informational diagnostics (LOG_INFO). -/
def LOG_INFO : Nat := 6

/-- One diagnostic emitted through print_log. -/
structure LogMsg where
  priority : Nat
  msg : String
  deriving DecidableEq

/-- Urgency levels passed to notify_notification_set_urgency. -/
inductive Urgency where
  | normal
  | critical
  deriving DecidableEq

/-- The server_caps array: the four capability booleans negotiated at startup. -/
structure Caps where
  body : Bool
  hyperlinks : Bool
  markup : Bool
  persistence : Bool
  deriving DecidableEq

/-- Presentation-server identity obtained from notify_get_server_info
(the spec_version string is never read by the renderer and is omitted). -/
structure ServerInfo where
  name : String
  vendor : String
  version : String
  deriving DecidableEq

/-- The notification record of github-notifyd.c (a fully resolved feed entry). -/
structure notification where
  repository : String
  repository_url : String
  type : String
  title : String
  user : String
  user_avatar : Option String
  reason : String
  deriving DecidableEq

/-- One presentation event handed to libnotify: the arguments of
notify_notification_new plus the urgency set on it.  Error events pass a
NULL body and icon, modelled as none. -/
structure Event where
  summary : String
  body : Option String
  icon : Option String
  urgency : Urgency
  deriving DecidableEq

/-- Decoded JSON values (jansson json_t).  Numbers are modelled as integers;
no claim depends on non-integral values. -/
inductive Json where
  | null
  | bool (b : Bool)
  | num (n : Int)
  | str (s : String)
  | arr (elems : List Json)
  | obj (fields : List (String × Json))

/-- json_is_object. -/
def Json.isObj : Json → Bool
  | .obj _ => true
  | _ => false

/-- json_object_get: the binding of the key, none when the key is absent or
the value is not an object. -/
def json_object_get (j : Json) (key : String) : Option Json :=
  match j with
  | .obj fields => fields.lookup key
  | _ => none

/-- Field read guarded by json_is_string, as in the extraction code. -/
def getStr (j : Json) (key : String) : Option String :=
  match json_object_get j key with
  | some (.str s) => some s
  | _ => none

/-- Field read guarded by json_is_number. -/
def getNum (j : Json) (key : String) : Option Int :=
  match json_object_get j key with
  | some (.num n) => some n
  | _ => none

/-- Field read guarded by json_is_object. -/
def getObjV (j : Json) (key : String) : Option Json :=
  match json_object_get j key with
  | some (.obj fields) => some (.obj fields)
  | _ => none

/-- The SUMMARY string of every ordinary notification. -/
def SUMMARY : String := "You have received a new GitHub Notification"

/-- TAG_BOLD. -/
def TAG_BOLD : String := "<b>"

/-- TAG_BOLD_END. -/
def TAG_BOLD_END : String := "</b>"

/-- Summary of the critical 401 error event (line 735). -/
def AUTH_ERROR_SUMMARY : String :=
  "\x27github-notifyd\x27 authorization error - please check access token value"

/-- Summary of the critical generic error event (line 737), with the
source's own spelling. -/
def UNDEF_ERROR_SUMMARY : String :=
  "\x27github-notifyd\x27 undefinded error - please check the logs for more information"

/-- Diagnostic printed when persistent notifications were requested but the
server lacks the persistence capability. -/
def PERSISTENCE_MSG : String :=
  "notification server doesn\x27t support persistent notifications"

/-- set_server_caps: one step of the startup negotiation fold over the
capability strings returned by notify_get_server_caps. -/
def set_server_caps (caps : Caps) (cap : String) : Caps :=
  let caps := if cap = "body" then { caps with body := true } else caps
  let caps := if cap = "body-hyperlinks" then { caps with hyperlinks := true } else caps
  let caps := if cap = "body-markup" then { caps with markup := true } else caps
  if cap = "persistence" then { caps with persistence := true } else caps

/-- Exception 1 of show_notification (lines 446-455): the Plasma/KDE/1.0
server needs the markup line break in place of a newline. -/
def quirkNewline (info : ServerInfo) : String :=
  if info.name = "Plasma" ∧ info.vendor = "KDE" ∧ info.version = "1.0" then "<br/>" else "\n"

/-- Exception 2 of show_notification (lines 457-465): for the Xfce daemon
the body-hyperlinks capability is forced off - in the source this is a write
into the global server_caps array. -/
def quirkCaps (info : ServerInfo) (caps : Caps) : Caps :=
  if info.name = "Xfce Notify Daemon" ∧ info.vendor = "Xfce" then
    { caps with hyperlinks := false }
  else caps

/-- The bold tag pair of show_notification: real tags only when body-markup
was negotiated (lines 436-444). -/
def boldTags (caps : Caps) : String × String :=
  if caps.markup then (TAG_BOLD, TAG_BOLD_END) else ("", "")

/-- The body text assembled by show_notification (lines 467-484), after both
identity quirks have been applied. -/
def notifBody (caps : Caps) (info : ServerInfo) (notif : notification) : String :=
  let bold := (boldTags caps).1
  let bold_end := (boldTags caps).2
  let newline := quirkNewline info
  let caps2 := quirkCaps info caps
  if caps2.body then
    bold ++ "Repository:" ++ bold_end ++ "\t " ++ notif.repository ++ newline ++
    bold ++ "Type:" ++ bold_end ++ "\t\t " ++ notif.type ++ newline ++
    bold ++ "Title:" ++ bold_end ++ "\t\t " ++ notif.title ++ newline ++
    bold ++ "User:" ++ bold_end ++ "\t\t " ++ notif.user ++
    (if caps2.hyperlinks then
      newline ++ bold ++ "Link:" ++ bold_end ++ "\t\t <a href=" ++ notif.repository_url ++
        ">Link to Repository</a>"
    else "")
  else ""

/-- show_notification: builds one presentation event, applying the identity
quirks; the returned Caps value is the global server_caps array after the
call (Exception 2 writes to it), and the log list holds the diagnostics the
call printed. -/
def show_notification (opt_persistent : Bool) (info : ServerInfo) (caps : Caps)
    (notif : notification) : Event × Caps × List LogMsg :=
  let caps2 := quirkCaps info caps
  let logs :=
    if opt_persistent && !caps2.persistence then [⟨LOG_INFO, PERSISTENCE_MSG⟩] else []
  (⟨SUMMARY, some (notifBody caps info notif), notif.user_avatar, Urgency.normal⟩, caps2, logs)

/-- Outcome of one HTTP request as seen through curl: either
curl_easy_perform failed (transport error or the 30-second timeout), or a
response with some status code arrived.  parsed is the json_loads result of
the returned bytes (none: undecodable); filetime is the Last-Modified value
curl reports for the response. -/
inductive NetResult where
  | fail
  | ok (code : Int) (parsed : Option Json) (filetime : Int)

/-- The external world of one poll tick: the primary fetch outcome, the
enrichment fetch-plus-decode oracle (none covers both a failed secondary
request and a body that json_loads rejects), and the prepare_avatar
collaborator (none when the avatar image cannot be produced). -/
structure TickEnv where
  primary : NetResult
  fetch : String → Option Json
  avatar : Int → String → Option String

/-- Result of curl_request with pass_ifmodsince = TRUE: the body handed back
(with its decode result), the value left in the caller-supplied code
variable, the global last_mod after the call, and the diagnostics printed.
On a transport failure the code variable is NOT written (the source reads
CURLINFO_RESPONSE_CODE only after a successful perform), so the caller sees
whatever value it held before. -/
structure CurlOut where
  body : Option (Option Json)
  code : Int
  last_mod : Int
  logs : List LogMsg

/-- curl_request for the primary feed fetch (pass_ifmodsince = TRUE),
lines 246-344: non-{200,304} statuses are logged and yield NULL; 304 yields
NULL without touching last_mod; 200 returns the body and stores the
response filetime into last_mod. -/
def curl_request_ifmod (net : NetResult) (code0 last_mod0 : Int) : CurlOut :=
  match net with
  | .fail => ⟨none, code0, last_mod0, [⟨LOG_ERR, "curl_easy_perform() failed"⟩]⟩
  | .ok code parsed filetime =>
    if code ≠ 200 ∧ code ≠ 304 then
      ⟨none, code, last_mod0, [⟨LOG_ERR, "curl request error: server responded with code"⟩]⟩
    else if code = 304 then
      ⟨none, code, last_mod0, []⟩
    else
      ⟨some parsed, code, filetime, []⟩

/-- Per-record extraction and enrichment, the body of the array loop of
check_github_notifications (lines 571-715): any missing or mistyped required
field, a failed enrichment fetch, or (with avatars enabled) a missing or
mistyped avatar_url drops that single record (goto skip); a failed avatar
download alone does not. -/
def processElement (opt_no_avatar : Bool) (env : TickEnv) (j : Json) : Option notification :=
  if j.isObj then
    match getStr j "reason" with
    | none => none
    | some reason =>
      match getObjV j "subject" with
      | none => none
      | some subject =>
        match getStr subject "type" with
        | none => none
        | some type =>
          match getStr subject "title" with
          | none => none
          | some title =>
            match getObjV j "repository" with
            | none => none
            | some repository =>
              match getStr repository "name" with
              | none => none
              | some rname =>
                match getStr repository "html_url" with
                | none => none
                | some rurl =>
                  match getStr subject "latest_comment_url" with
                  | none => none
                  | some commentUrl =>
                    match env.fetch commentUrl with
                    | none => none
                    | some enriched =>
                      match getObjV enriched "user" with
                      | none => none
                      | some user =>
                        match getStr user "login" with
                        | none => none
                        | some login =>
                          match getNum user "id" with
                          | none => none
                          | some uid =>
                            match (if opt_no_avatar then some none
                                   else (getStr user "avatar_url").map
                                     (fun url => env.avatar uid url)) with
                            | none => none
                            | some user_avatar =>
                              some ⟨rname, rurl, type, title, login, user_avatar, reason⟩
  else none

/-- The diagnostic written for one array element: success and skip each
print exactly one line. -/
def elemLog (opt_no_avatar : Bool) (env : TickEnv) (j : Json) : LogMsg :=
  match processElement opt_no_avatar env j with
  | some _ => ⟨LOG_INFO, "new notification"⟩
  | none => ⟨LOG_INFO, "invalid notification"⟩

/-- One iteration of the notifications array loop: append on success
(g_list_append), skip with a diagnostic otherwise. -/
def process_step (opt_no_avatar : Bool) (env : TickEnv)
    (acc : List notification × List LogMsg) (j : Json) : List notification × List LogMsg :=
  match processElement opt_no_avatar env j with
  | some n => (acc.1 ++ [n], acc.2 ++ [⟨LOG_INFO, "new notification"⟩])
  | none => (acc.1, acc.2 ++ [⟨LOG_INFO, "invalid notification"⟩])

/-- The whole array loop: accumulated notifications in array order and the
per-record diagnostics. -/
def process_array (opt_no_avatar : Bool) (env : TickEnv) (elems : List Json) :
    List notification × List LogMsg :=
  elems.foldl (process_step opt_no_avatar env) ([], [])

/-- g_list_foreach (notifications_list, show_notification, NULL): events in
list order, threading the global capability vector through every call. -/
def show_all (opt_persistent : Bool) (info : ServerInfo) :
    Caps → List notification → List Event × Caps × List LogMsg
  | caps, [] => ([], caps, [])
  | caps, n :: rest =>
    let r := show_notification opt_persistent info caps n
    let rs := show_all opt_persistent info r.2.1 rest
    (r.1 :: rs.1, rs.2.1, r.2.2 ++ rs.2.2)

/-- The critical error event built at the error label (lines 733-737):
the authorization message on 401, the generic message otherwise. -/
def error_event (return_code : Int) : Event :=
  if return_code = 401 then ⟨AUTH_ERROR_SUMMARY, none, none, Urgency.critical⟩
  else ⟨UNDEF_ERROR_SUMMARY, none, none, Urgency.critical⟩

/-- Everything observable after one tick: the events shown in order, the
diagnostics printed, and the global last_mod and server_caps afterwards. -/
structure TickOut where
  events : List Event
  logs : List LogMsg
  last_mod : Int
  caps : Caps
  deriving DecidableEq

/-- The error label of check_github_notifications (lines 727-744): silent
on 304, exactly one critical event otherwise. -/
def error_tick (return_code : Int) (logs : List LogMsg) (last_mod : Int) (caps : Caps) : TickOut :=
  if return_code = 304 then ⟨[], logs, last_mod, caps⟩
  else ⟨[error_event return_code], logs, last_mod, caps⟩

/-- One poll tick, check_github_notifications (lines 532-745).  return_code0
is the value the uninitialized local return_code happens to hold when the
tick starts; last_mod0 is the global staleness marker on entry. -/
def check_github_notifications (opt_no_avatar opt_persistent : Bool) (info : ServerInfo)
    (caps : Caps) (env : TickEnv) (return_code0 last_mod0 : Int) : TickOut :=
  let c := curl_request_ifmod env.primary return_code0 last_mod0
  match c.body with
  | none => error_tick c.code c.logs c.last_mod caps
  | some none =>
    error_tick c.code (c.logs ++ [⟨LOG_ERR, "JSON error"⟩]) c.last_mod caps
  | some (some root) =>
    match root with
    | .arr elems =>
      let pr := process_array opt_no_avatar env elems
      let sh := show_all opt_persistent info caps pr.1
      ⟨sh.1, c.logs ++ pr.2 ++ sh.2.2, c.last_mod, sh.2.1⟩
    | _ =>
      error_tick c.code (c.logs ++ [⟨LOG_ERR, "JSON error: root is not an array"⟩])
        c.last_mod caps

/-- Count of the per-record skip diagnostics in a log stream. -/
def countInvalid (logs : List LogMsg) : Nat :=
  logs.countP (fun l => l.msg = "invalid notification")

/-- The guint opt_interval after option parsing: G_OPTION_ARG_INT parses a
signed 32-bit integer and stores its bit pattern into the unsigned
variable (line 66 declares guint). -/
def storeInterval (v : Int) : Nat := (v % (2 ^ 32 : Int)).toNat

/-- Lines 816-821 of main: stored values under 45 are raised to 45 with a
diagnostic. -/
def checkInterval (opt_interval : Nat) : Nat × List LogMsg :=
  if opt_interval < 45 then (45, [⟨LOG_ERR, "minimal polling interval value is 45 seconds"⟩])
  else (opt_interval, [])

/-- The period handed to g_timeout_add_seconds for a configured value v. -/
def registeredInterval (v : Int) : Nat := (checkInterval (storeInterval v)).1

/-! ### String helpers -/

@[simp] theorem str_data_append (s t : String) : (s ++ t).data = s.data ++ t.data :=
  String.data_append s t

@[simp] theorem str_empty_append (s : String) : "" ++ s = s := by
  cases s; exact congrArg String.mk rfl

@[simp] theorem str_append_empty (s : String) : s ++ "" = s := by
  cases s; exact congrArg String.mk (List.append_nil _)

theorem str_append_assoc (s t u : String) : s ++ t ++ u = s ++ (t ++ u) := by
  cases s; cases t; cases u; exact congrArg String.mk (List.append_assoc ..)

/-! ### Renderer lemmas -/

@[simp] theorem quirkCaps_body (info : ServerInfo) (caps : Caps) :
    (quirkCaps info caps).body = caps.body := by
  unfold quirkCaps; split <;> rfl

@[simp] theorem quirkCaps_markup (info : ServerInfo) (caps : Caps) :
    (quirkCaps info caps).markup = caps.markup := by
  unfold quirkCaps; split <;> rfl

@[simp] theorem quirkCaps_persistence (info : ServerInfo) (caps : Caps) :
    (quirkCaps info caps).persistence = caps.persistence := by
  unfold quirkCaps; split <;> rfl

theorem quirkCaps_hyper (info : ServerInfo) (caps : Caps) :
    (quirkCaps info caps).hyperlinks =
      if info.name = "Xfce Notify Daemon" ∧ info.vendor = "Xfce" then false
      else caps.hyperlinks := by
  unfold quirkCaps; split <;> rfl

theorem quirkCaps_idem (info : ServerInfo) (caps : Caps) :
    quirkCaps info (quirkCaps info caps) = quirkCaps info caps := by
  by_cases h : info.name = "Xfce Notify Daemon" ∧ info.vendor = "Xfce" <;>
    simp [quirkCaps, h]

theorem boldTags_quirkCaps (info : ServerInfo) (caps : Caps) :
    boldTags (quirkCaps info caps) = boldTags caps := by
  simp [boldTags]

theorem notifBody_quirkCaps (info : ServerInfo) (caps : Caps) (n : notification) :
    notifBody (quirkCaps info caps) info n = notifBody caps info n := by
  simp only [notifBody, boldTags_quirkCaps, quirkCaps_idem, quirkCaps_body]

theorem show_notification_quirkCaps (p : Bool) (info : ServerInfo) (caps : Caps)
    (n : notification) :
    show_notification p info (quirkCaps info caps) n = show_notification p info caps n := by
  simp only [show_notification, notifBody_quirkCaps, quirkCaps_idem, quirkCaps_persistence]

theorem show_notification_caps (p : Bool) (info : ServerInfo) (caps : Caps)
    (n : notification) :
    (show_notification p info caps n).2.1 = quirkCaps info caps := rfl

theorem show_all_events (p : Bool) (info : ServerInfo) (caps : Caps)
    (ns : List notification) :
    (show_all p info caps ns).1 = ns.map (fun n => (show_notification p info caps n).1) := by
  induction ns generalizing caps with
  | nil => rfl
  | cons n rest ih =>
    simp only [show_all, List.map_cons, show_notification_caps]
    rw [ih]
    simp only [show_notification_quirkCaps]

theorem show_all_caps (p : Bool) (info : ServerInfo) (caps : Caps) (ns : List notification) :
    (show_all p info caps ns).2.1 = if ns.isEmpty then caps else quirkCaps info caps := by
  induction ns generalizing caps with
  | nil => rfl
  | cons n rest ih =>
    simp only [show_all, show_notification_caps, ih, List.isEmpty_cons]
    cases rest <;> simp [quirkCaps_idem]

theorem countInvalid_append (l1 l2 : List LogMsg) :
    countInvalid (l1 ++ l2) = countInvalid l1 + countInvalid l2 :=
  List.countP_append ..

theorem countInvalid_show_all (p : Bool) (info : ServerInfo) (caps : Caps)
    (ns : List notification) :
    countInvalid (show_all p info caps ns).2.2 = 0 := by
  induction ns generalizing caps with
  | nil => rfl
  | cons n rest ih =>
    simp only [show_all]
    rw [countInvalid_append, ih]
    have h1 : countInvalid (show_notification p info caps n).2.2 = 0 := by
      simp only [show_notification]
      split
      · decide
      · rfl
    rw [h1]

/-! ### Array loop lemmas -/

theorem process_array_go (a : Bool) (env : TickEnv) (elems : List Json) :
    ∀ acc : List notification × List LogMsg,
      elems.foldl (process_step a env) acc =
        (acc.1 ++ elems.filterMap (processElement a env), acc.2 ++ elems.map (elemLog a env)) := by
  induction elems with
  | nil => intro acc; simp
  | cons j rest ih =>
    intro acc
    rw [List.foldl_cons, ih]
    cases hj : processElement a env j <;>
      simp [process_step, elemLog, hj, List.filterMap_cons, List.append_assoc]

theorem process_array_spec (a : Bool) (env : TickEnv) (elems : List Json) :
    process_array a env elems =
      (elems.filterMap (processElement a env), elems.map (elemLog a env)) := by
  rw [process_array, process_array_go]; simp

theorem countInvalid_elemLogs (a : Bool) (env : TickEnv) (elems : List Json) :
    countInvalid (elems.map (elemLog a env)) =
      elems.countP (fun j => (processElement a env j).isNone) := by
  induction elems with
  | nil => rfl
  | cons j rest ih =>
    simp only [countInvalid, List.map_cons, List.countP_cons] at ih ⊢
    rw [ih]
    cases hj : processElement a env j <;> simp [elemLog, hj]

theorem length_filterMap_eq_countP {α β : Type} (f : α → Option β) (l : List α) :
    (l.filterMap f).length = l.countP (fun a => (f a).isSome) := by
  induction l with
  | nil => rfl
  | cons a rest ih =>
    cases h : f a <;> simp [List.filterMap_cons, h, List.countP_cons, ih]

/-! ### Tick characterization on a well-decoded 200 response -/

theorem tick_ok (na p : Bool) (info : ServerInfo) (caps : Caps) (env : TickEnv)
    (feed : List Json) (ft code0 lm0 : Int)
    (h : env.primary = NetResult.ok 200 (some (Json.arr feed)) ft) :
    check_github_notifications na p info caps env code0 lm0 =
      ⟨(feed.filterMap (processElement na env)).map
          (fun n => (show_notification p info caps n).1),
        feed.map (elemLog na env) ++
          (show_all p info caps (feed.filterMap (processElement na env))).2.2,
        ft,
        if (feed.filterMap (processElement na env)).isEmpty then caps
        else quirkCaps info caps⟩ := by
  have hc : curl_request_ifmod env.primary code0 lm0 =
      ⟨some (some (Json.arr feed)), 200, ft, []⟩ := by
    rw [h]; simp [curl_request_ifmod]
  simp only [check_github_notifications, hc]
  simp only [process_array_spec, show_all_events, show_all_caps, List.nil_append]

/-! ### Body shape helpers -/

/-- The four label lines of the body with explicit bold tags and line-break
token. -/
def linedBody (bold bold_end nl : String) (n : notification) : String :=
  bold ++ "Repository:" ++ bold_end ++ "\t " ++ n.repository ++ nl ++
  bold ++ "Type:" ++ bold_end ++ "\t\t " ++ n.type ++ nl ++
  bold ++ "Title:" ++ bold_end ++ "\t\t " ++ n.title ++ nl ++
  bold ++ "User:" ++ bold_end ++ "\t\t " ++ n.user

/-- The hyperlink fragment appended when body-hyperlinks is effective. -/
def linkPiece (bold bold_end nl url : String) : String :=
  nl ++ bold ++ "Link:" ++ bold_end ++ "\t\t <a href=" ++ url ++ ">Link to Repository</a>"

/-- The body with no markup at all: unwrapped labels, field values, and the
line-break token. -/
def plainBody (nl : String) (n : notification) : String :=
  "Repository:" ++ "\t " ++ n.repository ++ nl ++
  "Type:" ++ "\t\t " ++ n.type ++ nl ++
  "Title:" ++ "\t\t " ++ n.title ++ nl ++
  "User:" ++ "\t\t " ++ n.user

theorem notifBody_false (caps : Caps) (info : ServerInfo) (n : notification)
    (hb : caps.body = false) : notifBody caps info n = "" := by
  simp [notifBody, hb]

theorem notifBody_eq (caps : Caps) (info : ServerInfo) (n : notification)
    (hb : caps.body = true) :
    notifBody caps info n =
      linedBody (boldTags caps).1 (boldTags caps).2 (quirkNewline info) n ++
        (if (quirkCaps info caps).hyperlinks then
           linkPiece (boldTags caps).1 (boldTags caps).2 (quirkNewline info) n.repository_url
         else "") := by
  simp only [notifBody, linedBody, linkPiece, quirkCaps_body, hb, if_true, str_append_assoc]

/-! ### Claims -/

/-- C2: the claim is refuted by the source.  On a transport-level failure
(curl_easy_perform not CURLE_OK, which includes the 30-second timeout)
curl_request jumps to exit_null before CURLINFO_RESPONSE_CODE is read, so
the status output parameter keeps whatever value the caller's uninitialized
return_code local already held: it is not set to 0, and the tick's
classification depends on that residual value.  With residual 304 the tick
emits no event at all; with residual 401 it emits the authorization event
instead of the generic one; only a residual value outside {304, 401} yields
the claimed single critical generic event. -/
theorem c2_transport_failure_uses_residual_code (na p : Bool) (info : ServerInfo)
    (caps : Caps) (fetch : String → Option Json) (av : Int → String → Option String)
    (lm0 : Int) :
    (check_github_notifications na p info caps ⟨NetResult.fail, fetch, av⟩ 304 lm0).events = []
    ∧ (check_github_notifications na p info caps ⟨NetResult.fail, fetch, av⟩ 401 lm0).events =
        [⟨AUTH_ERROR_SUMMARY, none, none, Urgency.critical⟩]
    ∧ (check_github_notifications na p info caps ⟨NetResult.fail, fetch, av⟩ 0 lm0).events =
        [⟨UNDEF_ERROR_SUMMARY, none, none, Urgency.critical⟩]
    ∧ (curl_request_ifmod NetResult.fail 304 lm0).code = 304 :=
  ⟨rfl, rfl, rfl, rfl⟩

/-- C3: a poll tick whose primary fetch returns HTTP 304 emits no
presentation event, prints no diagnostic at all (in particular none at error
priority), and leaves the staleness marker last_mod at the value it held
from the prior successful fetch - for any response body content. -/
theorem c3_not_modified_silent (na p : Bool) (info : ServerInfo) (caps : Caps)
    (b : Option Json) (ft : Int) (fetch : String → Option Json)
    (av : Int → String → Option String) (code0 lm0 : Int) :
    (check_github_notifications na p info caps ⟨NetResult.ok 304 b ft, fetch, av⟩ code0 lm0).events = []
    ∧ (check_github_notifications na p info caps ⟨NetResult.ok 304 b ft, fetch, av⟩ code0 lm0).last_mod = lm0
    ∧ (check_github_notifications na p info caps ⟨NetResult.ok 304 b ft, fetch, av⟩ code0 lm0).logs = [] :=
  ⟨rfl, rfl, rfl⟩

/-- C4: a poll tick whose primary fetch returns HTTP 401 emits exactly one
presentation event, critical, with the fixed authorization-error message,
regardless of the response body content, with no batch processing and the
staleness marker untouched. -/
theorem c4_unauthorized_single_critical_event (na p : Bool) (info : ServerInfo)
    (caps : Caps) (b : Option Json) (ft : Int) (fetch : String → Option Json)
    (av : Int → String → Option String) (code0 lm0 : Int) :
    (check_github_notifications na p info caps ⟨NetResult.ok 401 b ft, fetch, av⟩ code0 lm0).events =
      [⟨AUTH_ERROR_SUMMARY, none, none, Urgency.critical⟩]
    ∧ (check_github_notifications na p info caps ⟨NetResult.ok 401 b ft, fetch, av⟩ code0 lm0).last_mod = lm0 :=
  ⟨rfl, rfl⟩

/-- C8 counterexample: the configured value -1 is below 45, yet it is not
clamped to 45 and no diagnostic is printed: G_OPTION_ARG_INT stores the
signed bit pattern into the guint opt_interval, so the unsigned comparison
sees 4294967295 and the timer is registered with that period. -/
theorem c8_negative_interval_not_clamped :
    (-1 : Int) < 45
    ∧ registeredInterval (-1) = 4294967295
    ∧ registeredInterval (-1) ≠ 45
    ∧ (checkInterval (storeInterval (-1))).2 = [] := by
  refine ⟨by decide, by decide, by decide, by decide⟩

/-- C8 amended: for configured values in [0, 45) the interval is clamped to
exactly 45 with a diagnostic; values of 45 or more (within gint range) pass
through unchanged; negative configured values wrap modulo 2^32 into the
guint and pass through unclamped and undiagnosed; in every case the
registered period is at least 45 seconds. -/
theorem c8_interval_clamp_amended (v : Int) (h1 : -(2 ^ 31) ≤ v) (h2 : v < 2 ^ 31) :
    (0 ≤ v → v < 45 →
      registeredInterval v = 45 ∧ (checkInterval (storeInterval v)).2 ≠ [])
    ∧ (45 ≤ v → registeredInterval v = v.toNat)
    ∧ (v < 0 →
        registeredInterval v = (v + 2 ^ 32).toNat ∧ (checkInterval (storeInterval v)).2 = [])
    ∧ 45 ≤ registeredInterval v := by
  by_cases h0 : 0 ≤ v
  · have hs : storeInterval v = v.toNat := by unfold storeInterval; omega
    refine ⟨?_, ?_, ?_, ?_⟩
    · intro _ hlt
      rw [registeredInterval, hs, checkInterval, if_pos (by omega)]
      exact ⟨rfl, by decide⟩
    · intro h45
      rw [registeredInterval, hs, checkInterval, if_neg (by omega)]
    · intro hneg; omega
    · rw [registeredInterval, hs]
      unfold checkInterval
      split
      · omega
      · omega
  · have hs : storeInterval v = (v + 2 ^ 32).toNat := by unfold storeInterval; omega
    refine ⟨?_, ?_, ?_, ?_⟩
    · intro hge _; omega
    · intro h45; omega
    · intro _
      rw [registeredInterval, hs, checkInterval, if_neg (by omega)]
      exact ⟨rfl, rfl⟩
    · rw [registeredInterval, hs]
      unfold checkInterval
      split
      · omega
      · omega

/-- C8 witness: at the concrete configured value 10 the hypotheses hold and
the registered period is exactly 45. -/
theorem c8_interval_clamp_amended_witness :
    ((-(2 ^ 31) : Int) ≤ 10 ∧ (10 : Int) < 2 ^ 31)
    ∧ registeredInterval 10 = 45 :=
  ⟨⟨by decide, by decide⟩,
    ((c8_interval_clamp_amended 10 (by decide) (by decide)).1 (by decide) (by decide)).1⟩

/-- C9 counterexample: rendering one notification under the Xfce identity
with a negotiated capability vector that reports hyperlink support true
leaves the stored vector changed - the hyperlinks boolean is written to
false, so the vector does not keep the values established at negotiation. -/
theorem c9_render_writes_caps :
    (⟨true, true, true, true⟩ : Caps).hyperlinks = true
    ∧ (show_notification false ⟨"Xfce Notify Daemon", "Xfce", "0.4"⟩ ⟨true, true, true, true⟩
        ⟨"r", "http://x", "Issue", "T", "alice", none, "mention"⟩).2.1.hyperlinks = false :=
  ⟨rfl, rfl⟩

/-- C9 amended: rendering never changes the body, markup, or persistence
booleans, and changes the hyperlinks boolean only under the Xfce name+vendor
identity, where the stored value is forced to false; over a whole batch the
capability vector afterwards equals the negotiated one for non-quirky
identities and the hyperlinks-cleared one under the Xfce identity. -/
theorem c9_caps_mutation_amended (p : Bool) (info : ServerInfo) (caps : Caps)
    (n : notification) (ns : List notification) :
    ((show_notification p info caps n).2.1.body = caps.body
      ∧ (show_notification p info caps n).2.1.markup = caps.markup
      ∧ (show_notification p info caps n).2.1.persistence = caps.persistence)
    ∧ (show_notification p info caps n).2.1.hyperlinks =
        (if info.name = "Xfce Notify Daemon" ∧ info.vendor = "Xfce" then false
         else caps.hyperlinks)
    ∧ (show_all p info caps ns).2.1 = (if ns.isEmpty then caps else quirkCaps info caps) := by
  refine ⟨⟨?_, ?_, ?_⟩, ?_, ?_⟩
  · rw [show_notification_caps, quirkCaps_body]
  · rw [show_notification_caps, quirkCaps_markup]
  · rw [show_notification_caps, quirkCaps_persistence]
  · rw [show_notification_caps, quirkCaps_hyper]
  · exact show_all_caps ..

/-- C1: on a tick whose primary fetch returns 200 with a body decoding to an
array, the events shown are exactly the renderings, in array order, of the
elements that extract and enrich successfully; their number is the count of
well-formed elements; the number of per-record skip diagnostics equals the
count of elements that fail extraction or enrichment; and no element ever
aborts the batch (every well-formed element is rendered no matter which
other elements are malformed). -/
theorem c1_per_record_isolation (na p : Bool) (info : ServerInfo) (caps : Caps)
    (fetch : String → Option Json) (av : Int → String → Option String)
    (feed : List Json) (ft code0 lm0 : Int) :
    let env : TickEnv := ⟨NetResult.ok 200 (some (Json.arr feed)) ft, fetch, av⟩
    let out := check_github_notifications na p info caps env code0 lm0
    out.events =
      (feed.filterMap (processElement na env)).map
        (fun n => (show_notification p info caps n).1)
    ∧ out.events.length = feed.countP (fun j => (processElement na env j).isSome)
    ∧ countInvalid out.logs = feed.countP (fun j => (processElement na env j).isNone) := by
  intro env out
  have h : out = _ := tick_ok na p info caps env feed ft code0 lm0 rfl
  rw [h]
  refine ⟨rfl, ?_, ?_⟩
  · show ((feed.filterMap (processElement na env)).map
        (fun n => (show_notification p info caps n).1)).length = _
    rw [List.length_map]
    exact length_filterMap_eq_countP ..
  · show countInvalid (feed.map (elemLog na env) ++
        (show_all p info caps (feed.filterMap (processElement na env))).2.2) = _
    rw [countInvalid_append, countInvalid_show_all, countInvalid_elemLogs]
    exact Nat.add_zero _

/-- C10: a feed element whose enrichment response carries a well-formed user
object except that avatar_url is absent or not a string: with avatar display
disabled the record still resolves - avatar_url is never examined - into a
notification with an absent avatar handle and the tick renders it; with
avatar display enabled the very same record is dropped and nothing is
rendered. -/
theorem c10_no_avatar_skips_avatar_url (p : Bool) (info : ServerInfo) (caps : Caps)
    (fetch : String → Option Json) (av : Int → String → Option String)
    (j subj repo enr user : Json) (r ty ti rn ru u lg : String) (uid : Int)
    (ft code0 lm0 : Int)
    (h0 : j.isObj = true)
    (h1 : getStr j "reason" = some r)
    (h2 : getObjV j "subject" = some subj)
    (h3 : getStr subj "type" = some ty)
    (h4 : getStr subj "title" = some ti)
    (h5 : getObjV j "repository" = some repo)
    (h6 : getStr repo "name" = some rn)
    (h7 : getStr repo "html_url" = some ru)
    (h8 : getStr subj "latest_comment_url" = some u)
    (h9 : fetch u = some enr)
    (h10 : getObjV enr "user" = some user)
    (h11 : getStr user "login" = some lg)
    (h12 : getNum user "id" = some uid)
    (h13 : getStr user "avatar_url" = none) :
    let env : TickEnv := ⟨NetResult.ok 200 (some (Json.arr [j])) ft, fetch, av⟩
    processElement true env j = some ⟨rn, ru, ty, ti, lg, none, r⟩
    ∧ processElement false env j = none
    ∧ (check_github_notifications true p info caps env code0 lm0).events =
        [(show_notification p info caps ⟨rn, ru, ty, ti, lg, none, r⟩).1]
    ∧ (check_github_notifications false p info caps env code0 lm0).events = [] := by
  intro env
  have hsome : processElement true env j = some ⟨rn, ru, ty, ti, lg, none, r⟩ := by
    simp [processElement, h0, h1, h2, h3, h4, h5, h6, h7, h8, h9, h10, h11, h12]
  have hnone : processElement false env j = none := by
    simp [processElement, h0, h1, h2, h3, h4, h5, h6, h7, h8, h9, h10, h11, h12, h13]
  refine ⟨hsome, hnone, ?_, ?_⟩
  · rw [tick_ok true p info caps env [j] ft code0 lm0 rfl]
    simp [hsome]
  · rw [tick_ok false p info caps env [j] ft code0 lm0 rfl]
    simp [hnone]

/-- Concrete feed element for the C10 witness (the spec's own scenario). -/
def jW : Json :=
  Json.obj [("reason", Json.str "mention"),
    ("subject", Json.obj [("type", Json.str "PullRequest"), ("title", Json.str "Fix bug"),
      ("latest_comment_url", Json.str "U")]),
    ("repository", Json.obj [("name", Json.str "r"), ("html_url", Json.str "http://x")])]

/-- Concrete subject object of jW. -/
def subjW : Json :=
  Json.obj [("type", Json.str "PullRequest"), ("title", Json.str "Fix bug"),
    ("latest_comment_url", Json.str "U")]

/-- Concrete repository object of jW. -/
def repoW : Json := Json.obj [("name", Json.str "r"), ("html_url", Json.str "http://x")]

/-- Concrete user object lacking avatar_url for the C10 witness. -/
def userW : Json := Json.obj [("login", Json.str "alice"), ("id", Json.num 7)]

/-- Concrete enrichment response for the C10 witness. -/
def enrW : Json := Json.obj [("user", userW)]

/-- Concrete tick environment for the C10 witness. -/
def envW : TickEnv :=
  ⟨NetResult.ok 200 (some (Json.arr [jW])) 0, fun _ => some enrW, fun _ _ => none⟩

/-- C10 witness: on the concrete record whose user object lacks avatar_url,
avatar-disabled resolution succeeds with an absent avatar handle and
avatar-enabled resolution drops the record. -/
theorem c10_no_avatar_skips_avatar_url_witness :
    getStr userW "avatar_url" = none
    ∧ processElement true envW jW =
        some ⟨"r", "http://x", "PullRequest", "Fix bug", "alice", none, "mention"⟩
    ∧ processElement false envW jW = none :=
  ⟨rfl,
    (c10_no_avatar_skips_avatar_url false ⟨"a", "b", "c"⟩ ⟨false, false, false, false⟩
      (fun _ => some enrW) (fun _ _ => none) jW subjW repoW enrW userW
      "mention" "PullRequest" "Fix bug" "r" "http://x" "U" "alice" 7 0 0 0
      rfl rfl rfl rfl rfl rfl rfl rfl rfl rfl rfl rfl rfl rfl).1,
    (c10_no_avatar_skips_avatar_url false ⟨"a", "b", "c"⟩ ⟨false, false, false, false⟩
      (fun _ => some enrW) (fun _ _ => none) jW subjW repoW enrW userW
      "mention" "PullRequest" "Fix bug" "r" "http://x" "U" "alice" 7 0 0 0
      rfl rfl rfl rfl rfl rfl rfl rfl rfl rfl rfl rfl rfl rfl).2.1⟩

/-- Helper: with markup off, hyperlinks ineffective, and the default newline
token, a body built from fields free of the < character contains no <. -/
theorem plain_body_lt_free (caps : Caps) (info : ServerInfo) (n : notification)
    (hmk : caps.markup = false) (hhy : (quirkCaps info caps).hyperlinks = false)
    (hnl : quirkNewline info = "\n")
    (m1 : '<' ∉ n.repository.data) (m2 : '<' ∉ n.type.data)
    (m3 : '<' ∉ n.title.data) (m4 : '<' ∉ n.user.data) :
    '<' ∉ (notifBody caps info n).data := by
  cases hb : caps.body
  · rw [notifBody_false caps info n hb]; decide
  · rw [notifBody_eq caps info n hb]
    have hbt : boldTags caps = ("", "") := by simp [boldTags, hmk]
    have hif : ¬ ((quirkCaps info caps).hyperlinks = true) := by simp [hhy]
    rw [hbt, hnl, if_neg hif]
    simp only [linedBody, str_append_empty, str_data_append, List.mem_append, not_or]
    repeat' apply And.intro
    all_goals first | assumption | decide

/-- C5 counterexample: with body-markup false the rendered body can still
contain a bold tag, because field values from the feed are interpolated
verbatim - a title carrying markup defeats the claim as stated. -/
theorem c5_markup_leaks_through_fields :
    (⟨true, false, false, false⟩ : Caps).markup = false
    ∧ "<b>".data <:+:
        ((show_notification false ⟨"notify-osd", "Canonical Ltd", "1.0"⟩
            ⟨true, false, false, false⟩
            ⟨"r", "http://x", "Issue", "<b>T</b>", "alice", none, "mention"⟩).1.body.getD "").data :=
  ⟨rfl, by decide⟩

/-- C5 amended: the renderer itself inserts no markup when the capability is
off.  The shown event's body is exactly notifBody; with body-text false it
is the empty string (summary-only event); with markup false and hyperlinks
ineffective it is exactly the unwrapped labels, field values and line-break
token; and for a non-quirky identity whose field values are free of the <
character the body contains no bold tag and no hyperlink fragment.  The
original universal claim holds except when a field value itself carries the
fragment. -/
theorem c5_renderer_inserts_no_markup (p : Bool) (info : ServerInfo) (caps : Caps)
    (n : notification) :
    ((show_notification p info caps n).1.body = some (notifBody caps info n))
    ∧ (caps.body = false → notifBody caps info n = "")
    ∧ (caps.body = true → caps.markup = false → (quirkCaps info caps).hyperlinks = false →
        notifBody caps info n = plainBody (quirkNewline info) n)
    ∧ (caps.markup = false → (quirkCaps info caps).hyperlinks = false →
        quirkNewline info = "\n" →
        '<' ∉ n.repository.data → '<' ∉ n.type.data → '<' ∉ n.title.data → '<' ∉ n.user.data →
        ('<' ∉ (notifBody caps info n).data
          ∧ ¬ "<b>".data <:+: (notifBody caps info n).data
          ∧ ¬ "</b>".data <:+: (notifBody caps info n).data
          ∧ ¬ "<a href=".data <:+: (notifBody caps info n).data)) := by
  refine ⟨rfl, notifBody_false caps info n, ?_, ?_⟩
  · intro hb hmk hhy
    rw [notifBody_eq caps info n hb]
    have hbt : boldTags caps = ("", "") := by simp [boldTags, hmk]
    have hif : ¬ ((quirkCaps info caps).hyperlinks = true) := by simp [hhy]
    rw [hbt, if_neg hif]
    simp [linedBody, plainBody, str_append_assoc]
  · intro hmk hhy hnl m1 m2 m3 m4
    have key := plain_body_lt_free caps info n hmk hhy hnl m1 m2 m3 m4
    exact ⟨key,
      fun h => key (h.sublist.subset (by decide)),
      fun h => key (h.sublist.subset (by decide)),
      fun h => key (h.sublist.subset (by decide))⟩

/-- C5 witness: at a concrete non-quirky identity, markup-free capability
vector and clean field values, the hypotheses hold and the rendered body
contains no bold tag. -/
theorem c5_renderer_inserts_no_markup_witness :
    ((⟨true, false, false, false⟩ : Caps).markup = false
      ∧ (quirkCaps ⟨"notify-osd", "Canonical Ltd", "1.0"⟩
          ⟨true, false, false, false⟩).hyperlinks = false
      ∧ quirkNewline ⟨"notify-osd", "Canonical Ltd", "1.0"⟩ = "\n")
    ∧ ¬ "<b>".data <:+:
        (notifBody ⟨true, false, false, false⟩ ⟨"notify-osd", "Canonical Ltd", "1.0"⟩
          ⟨"r", "http://x", "Issue", "T", "alice", none, "mention"⟩).data :=
  ⟨⟨rfl, by decide, by decide⟩,
    ((c5_renderer_inserts_no_markup false ⟨"notify-osd", "Canonical Ltd", "1.0"⟩
        ⟨true, false, false, false⟩
        ⟨"r", "http://x", "Issue", "T", "alice", none, "mention"⟩).2.2.2
      rfl (by decide) (by decide) (by decide) (by decide) (by decide) (by decide)).2.1⟩

/-- C6 counterexample: under the Xfce identity with hyperlink capability
negotiated true, the rendered body can still contain a hyperlink fragment,
because field values are interpolated verbatim - a title carrying one
defeats the claim as stated. -/
theorem c6_link_leaks_through_fields :
    (⟨true, true, false, false⟩ : Caps).hyperlinks = true
    ∧ "<a href=".data <:+:
        ((show_notification false ⟨"Xfce Notify Daemon", "Xfce", "0.4"⟩
            ⟨true, true, false, false⟩
            ⟨"r", "http://x", "Issue", "see <a href=http://e>x</a>", "alice", none,
              "mention"⟩).1.body.getD "").data :=
  ⟨rfl, by decide⟩

/-- C6 amended: under the Xfce name+vendor identity the renderer appends no
hyperlink fragment even when the negotiated vector reports hyperlink
support: the rendered event is the one a hyperlinks-false vector yields,
the body is exactly the four label lines with no link piece, and with
markup off and field values free of the < character the body contains no
hyperlink fragment at all.  The original claim fails only when a field
value itself carries the fragment. -/
theorem c6_xfce_hyperlinks_forced_off (p : Bool) (caps : Caps) (ver : String)
    (n : notification) :
    ((show_notification p ⟨"Xfce Notify Daemon", "Xfce", ver⟩ caps n).1 =
        (show_notification p ⟨"Xfce Notify Daemon", "Xfce", ver⟩
          { caps with hyperlinks := false } n).1)
    ∧ (caps.body = true →
        notifBody caps ⟨"Xfce Notify Daemon", "Xfce", ver⟩ n =
          linedBody (boldTags caps).1 (boldTags caps).2 "\n" n)
    ∧ (caps.markup = false →
        '<' ∉ n.repository.data → '<' ∉ n.type.data → '<' ∉ n.title.data → '<' ∉ n.user.data →
        ¬ "<a href=".data <:+:
          (notifBody caps ⟨"Xfce Notify Daemon", "Xfce", ver⟩ n).data) := by
  have hq : quirkCaps ⟨"Xfce Notify Daemon", "Xfce", ver⟩ caps =
      { caps with hyperlinks := false } := by
    simp [quirkCaps]
  have hq2 : quirkCaps ⟨"Xfce Notify Daemon", "Xfce", ver⟩ { caps with hyperlinks := false } =
      { caps with hyperlinks := false } := by
    simp [quirkCaps]
  have hnl : quirkNewline ⟨"Xfce Notify Daemon", "Xfce", ver⟩ = "\n" := by
    simp [quirkNewline]
  have hhy : (quirkCaps ⟨"Xfce Notify Daemon", "Xfce", ver⟩ caps).hyperlinks = false := by
    rw [hq]
  have hbody : notifBody caps ⟨"Xfce Notify Daemon", "Xfce", ver⟩ n =
      notifBody { caps with hyperlinks := false } ⟨"Xfce Notify Daemon", "Xfce", ver⟩ n := by
    simp only [notifBody, hq, hq2, boldTags]
  refine ⟨?_, ?_, ?_⟩
  · simp only [show_notification, hbody, hq, hq2]
  · intro hb
    rw [notifBody_eq _ _ _ hb, hnl]
    have hif : ¬ ((quirkCaps ⟨"Xfce Notify Daemon", "Xfce", ver⟩ caps).hyperlinks = true) := by
      simp [hhy]
    rw [if_neg hif, str_append_empty]
  · intro hmk m1 m2 m3 m4
    exact fun h =>
      plain_body_lt_free caps ⟨"Xfce Notify Daemon", "Xfce", ver⟩ n hmk hhy hnl m1 m2 m3 m4
        (h.sublist.subset (by decide))

/-- C6 witness: at a concrete capability vector with hyperlink support true
and clean field values, the hypotheses hold and the Xfce-rendered body
carries no hyperlink fragment and equals the link-free four-line body. -/
theorem c6_xfce_hyperlinks_forced_off_witness :
    ((⟨true, true, false, false⟩ : Caps).body = true
      ∧ (⟨true, true, false, false⟩ : Caps).hyperlinks = true)
    ∧ notifBody ⟨true, true, false, false⟩ ⟨"Xfce Notify Daemon", "Xfce", "0.4"⟩
        ⟨"r", "http://x", "Issue", "T", "alice", none, "mention"⟩ =
      linedBody "" "" "\n" ⟨"r", "http://x", "Issue", "T", "alice", none, "mention"⟩
    ∧ ¬ "<a href=".data <:+:
        (notifBody ⟨true, true, false, false⟩ ⟨"Xfce Notify Daemon", "Xfce", "0.4"⟩
          ⟨"r", "http://x", "Issue", "T", "alice", none, "mention"⟩).data :=
  ⟨⟨rfl, rfl⟩,
    (c6_xfce_hyperlinks_forced_off false ⟨true, true, false, false⟩ "0.4"
      ⟨"r", "http://x", "Issue", "T", "alice", none, "mention"⟩).2.1 rfl,
    (c6_xfce_hyperlinks_forced_off false ⟨true, true, false, false⟩ "0.4"
      ⟨"r", "http://x", "Issue", "T", "alice", none, "mention"⟩).2.2
      rfl (by decide) (by decide) (by decide) (by decide)⟩

/-- Helper: neither bold tag variant contains the newline character. -/
theorem boldTags_newline_free (caps : Caps) :
    '\n' ∉ ((boldTags caps).1).data ∧ '\n' ∉ ((boldTags caps).2).data := by
  cases h : caps.markup
  · rw [boldTags, if_neg (by simp [h])]
    exact ⟨by decide, by decide⟩
  · rw [boldTags, if_pos h]
    exact ⟨by decide, by decide⟩

/-- C7 counterexample: under the exact Plasma/KDE/1.0 identity the rendered
body can still contain the default newline character, because field values
are interpolated verbatim - a title carrying a newline defeats the claim
that every line-break token in the body is the markup token. -/
theorem c7_newline_leaks_through_fields :
    quirkNewline ⟨"Plasma", "KDE", "1.0"⟩ = "<br/>"
    ∧ '\n' ∈ ((show_notification false ⟨"Plasma", "KDE", "1.0"⟩ ⟨true, false, false, false⟩
        ⟨"r", "http://x", "Issue", "line1\nline2", "alice", none,
          "mention"⟩).1.body.getD "").data :=
  ⟨by decide, by decide⟩

/-- C7 amended: under the exact Plasma/KDE/1.0 identity every line break the
renderer inserts is the markup token: the body is exactly the label lines
joined by the markup line-break token (plus the link piece when hyperlinks
are effective), and it contains no newline character provided the field
values carry none; for any identity differing in name, vendor, or version
the default newline token is selected and (with body text on) appears in
the body.  The original claim fails only when a field value itself carries
a newline. -/
theorem c7_plasma_linebreak_token (caps : Caps) (info : ServerInfo)
    (n : notification) :
    (info.name = "Plasma" → info.vendor = "KDE" → info.version = "1.0" →
      quirkNewline info = "<br/>"
      ∧ (caps.body = true →
          notifBody caps info n =
            linedBody (boldTags caps).1 (boldTags caps).2 "<br/>" n ++
              (if caps.hyperlinks then
                 linkPiece (boldTags caps).1 (boldTags caps).2 "<br/>" n.repository_url
               else ""))
      ∧ ('\n' ∉ n.repository.data → '\n' ∉ n.type.data → '\n' ∉ n.title.data →
         '\n' ∉ n.user.data → '\n' ∉ n.repository_url.data →
         '\n' ∉ (notifBody caps info n).data))
    ∧ (¬(info.name = "Plasma" ∧ info.vendor = "KDE" ∧ info.version = "1.0") →
      quirkNewline info = "\n"
      ∧ (caps.body = true → '\n' ∈ (notifBody caps info n).data)) := by
  constructor
  · intro hn hv hver
    have hnl : quirkNewline info = "<br/>" := by rw [quirkNewline, if_pos ⟨hn, hv, hver⟩]
    have hq : quirkCaps info caps = caps := by
      rw [quirkCaps, if_neg]
      intro hx
      rw [hn] at hx
      exact absurd hx.1 (by decide)
    refine ⟨hnl, ?_, ?_⟩
    · intro hb
      rw [notifBody_eq caps info n hb, hnl, hq]
    · intro m1 m2 m3 m4 m5
      cases hb : caps.body
      · rw [notifBody_false caps info n hb]; decide
      · rw [notifBody_eq caps info n hb, hnl, hq]
        have hb1 := (boldTags_newline_free caps).1
        have hb2 := (boldTags_newline_free caps).2
        cases hcap : caps.hyperlinks
        · rw [if_neg Bool.false_ne_true, str_append_empty]
          simp only [linedBody, str_data_append, List.mem_append, not_or]
          repeat' apply And.intro
          all_goals first | assumption | decide
        · rw [if_pos rfl]
          simp only [linedBody, linkPiece, str_data_append, List.mem_append, not_or]
          repeat' apply And.intro
          all_goals first | assumption | decide
  · intro hnp
    have hnl : quirkNewline info = "\n" := by rw [quirkNewline, if_neg hnp]
    refine ⟨hnl, ?_⟩
    intro hb
    rw [notifBody_eq caps info n hb, hnl]
    have hx : '\n' ∈ "\n".data := by decide
    simp [linedBody, str_data_append, List.mem_append, hx]

/-- C7 witness: at the concrete Plasma/KDE/1.0 identity with clean field
values, the hypotheses hold, the markup token is selected, and the rendered
body contains no newline character. -/
theorem c7_plasma_linebreak_token_witness :
    ((⟨"Plasma", "KDE", "1.0"⟩ : ServerInfo).name = "Plasma"
      ∧ (⟨"Plasma", "KDE", "1.0"⟩ : ServerInfo).vendor = "KDE"
      ∧ (⟨"Plasma", "KDE", "1.0"⟩ : ServerInfo).version = "1.0")
    ∧ quirkNewline ⟨"Plasma", "KDE", "1.0"⟩ = "<br/>"
    ∧ '\n' ∉ (notifBody ⟨true, false, false, false⟩ ⟨"Plasma", "KDE", "1.0"⟩
        ⟨"r", "http://x", "Issue", "T", "alice", none, "mention"⟩).data :=
  ⟨⟨rfl, rfl, rfl⟩,
    ((c7_plasma_linebreak_token ⟨true, false, false, false⟩ ⟨"Plasma", "KDE", "1.0"⟩
        ⟨"r", "http://x", "Issue", "T", "alice", none, "mention"⟩).1 rfl rfl rfl).1,
    ((c7_plasma_linebreak_token ⟨true, false, false, false⟩ ⟨"Plasma", "KDE", "1.0"⟩
        ⟨"r", "http://x", "Issue", "T", "alice", none, "mention"⟩).1 rfl rfl rfl).2.2
      (by decide) (by decide) (by decide) (by decide) (by decide)⟩

end GithubNotifyd
